import Mathlib

/-!
Shallow embedding of the client-side scripts of the `omartaha.ca` portfolio
site (`script.js` and `tracking.js`), together with proofs of the behavioural
claims about component lifecycle, theme resolution, scroll-driven animation,
throttling and the visitor-tracking beacon.

Browser state (DOM attributes, class lists, the two storage areas, bound
listeners, console output) is modelled by explicit records that the embedded
functions thread through; timers and observer callbacks are modelled by
explicit event delivery functions.
-/

namespace Portfolio

/-- Association-list model of a Web Storage area (`localStorage` /
`sessionStorage`): keys are unique, `setItem` overwrites in place. -/
abbrev Store := List (String × String)

/-- Web Storage `getItem`: the stored value, or `none` (JS `null`) when the
key is absent. -/
def Store.getItem : Store → String → Option String
  | [], _ => none
  | (k', v') :: rest, k => if k' == k then some v' else Store.getItem rest k

/-- Web Storage `setItem`: overwrite the value in place when the key exists,
append a fresh entry otherwise. -/
def Store.setItem : Store → String → String → Store
  | [], k, v => [(k, v)]
  | (k', v') :: rest, k, v =>
      if k' == k then (k, v) :: rest else (k', v') :: Store.setItem rest k v

/-- DOMTokenList `add`: a class list never holds duplicates. -/
def classAdd (cs : List String) (c : String) : List String :=
  if c ∈ cs then cs else cs ++ [c]

/-- DOMTokenList `remove`. -/
def classRemove (cs : List String) (c : String) : List String :=
  cs.filter (fun x => x ≠ c)

/-- DOMTokenList `toggle(c, force)` with an explicit boolean `force`, as used
throughout `script.js`. -/
def classToggleForce (cs : List String) (c : String) (force : Bool) : List String :=
  if force then classAdd cs c else classRemove cs c

/-- The document-level state that `ThemeManager` mutates: the `data-theme`
attribute on the root element and the `content` of the `meta[name="theme-color"]`
tag (`none` when the tag is absent from the page). -/
structure Doc where
  dataTheme : Option String
  metaThemeColor : Option String
deriving DecidableEq

/-- State of `ThemeManager` (script.js, ThemeManager constructor). -/
structure ThemeManager where
  currentTheme : String
  prefersDarkMode : Bool
deriving DecidableEq

/-- `new ThemeManager()`. -/
def ThemeManager.new : ThemeManager :=
  { currentTheme := "light", prefersDarkMode := false }

/-- `detectSystemPreference`: sample `matchMedia('(prefers-color-scheme: dark)')`.
The subscription to future media-query changes is a separate callback and is
modelled at the orchestrator level only as a bound listener. -/
def ThemeManager.detectSystemPreference (tm : ThemeManager)
    (systemPrefersDark : Bool) : ThemeManager :=
  { tm with prefersDarkMode := systemPrefersDark }

/-- `loadSavedTheme`: `localStorage.getItem('portfolio-theme')`, kept when it is
truthy and one of `light`/`dark`, otherwise fall back to the sampled system
preference. -/
def ThemeManager.loadSavedTheme (tm : ThemeManager) (ls : Store) : ThemeManager :=
  match ls.getItem "portfolio-theme" with
  | some saved =>
      if saved != "" && (saved == "light" || saved == "dark") then
        { tm with currentTheme := saved }
      else
        { tm with currentTheme := if tm.prefersDarkMode then "dark" else "light" }
  | none =>
      { tm with currentTheme := if tm.prefersDarkMode then "dark" else "light" }

/-- `updateMetaThemeColor`: rewrite the meta tag's `content` only when the tag
exists (`#1e293b` for dark, `#ffffff` for light). -/
def ThemeManager.updateMetaThemeColor (tm : ThemeManager) (d : Doc) : Doc :=
  match d.metaThemeColor with
  | some _ =>
      { d with
          metaThemeColor := some (if tm.currentTheme == "dark" then "#1e293b" else "#ffffff") }
  | none => d

/-- `applyTheme`: set the `data-theme` attribute, then sync the meta tag. -/
def ThemeManager.applyTheme (tm : ThemeManager) (d : Doc) : Doc :=
  tm.updateMetaThemeColor { d with dataTheme := some tm.currentTheme }

/-- `init`: detect the system preference, load the saved theme, apply. -/
def ThemeManager.init (tm : ThemeManager) (systemPrefersDark : Bool)
    (ls : Store) (d : Doc) : ThemeManager × Doc :=
  let tm1 := tm.detectSystemPreference systemPrefersDark
  let tm2 := tm1.loadSavedTheme ls
  (tm2, tm2.applyTheme d)

/-- `saveTheme`: persist the current theme under `portfolio-theme`. -/
def ThemeManager.saveTheme (tm : ThemeManager) (ls : Store) : Store :=
  ls.setItem "portfolio-theme" tm.currentTheme

/-- `toggleTheme`: flip the theme, re-apply it to the document, persist it. -/
def ThemeManager.toggleTheme (tm : ThemeManager) (d : Doc) (ls : Store) :
    ThemeManager × Doc × Store :=
  let tm' := { tm with currentTheme := if tm.currentTheme == "light" then "dark" else "light" }
  (tm', tm'.applyTheme d, tm'.saveTheme ls)

/-- `hasUserPreference`: `localStorage.getItem('portfolio-theme') !== null`. -/
def ThemeManager.hasUserPreference (ls : Store) : Bool :=
  (ls.getItem "portfolio-theme").isSome

/-- A `section[id]` element as far as `setActiveLink` reads it: its `id`
attribute and its absolute top offset
(`getBoundingClientRect().top + window.scrollY`), in document order. -/
structure PageSection where
  id : String
  top : Int
deriving DecidableEq

/-- A `.nav-link` element: its `href` attribute and its class list. -/
structure NavLink where
  href : String
  classes : List String
deriving DecidableEq

/-- The `sections.forEach` loop of `setActiveLink`: starting from the empty
string, remember the id of every section whose top is at or below
`scrollPosition`; the last qualifying section wins. -/
def currentSectionId (sections : List PageSection) (scrollPosition : Int) : String :=
  sections.foldl (fun cur s => if scrollPosition ≥ s.top then s.id else cur) ""

/-- Specification-side reading of the same loop: the id of the last section
(in document order) whose top offset is at or below `scrollPosition`, or
`none` when no section qualifies. -/
def lastQualifying (sections : List PageSection) (scrollPosition : Int) : Option String :=
  sections.foldl (fun cur s => if s.top ≤ scrollPosition then some s.id else cur) none

/-- `NavigationManager.setActiveLink`: compute
`scrollPosition = scrollY + navbar.offsetHeight + 100`, find the current
section, then toggle the `active` class on every nav link according to whether
`href.substring(1)` equals the current section id. -/
def setActiveLink (sections : List PageSection) (links : List NavLink)
    (scrollY navbarHeight : Int) : List NavLink :=
  let scrollPosition := scrollY + navbarHeight + 100
  let currentSection := currentSectionId sections scrollPosition
  links.map (fun l =>
    { l with classes := classToggleForce l.classes "active" (l.href.drop 1 == currentSection) })

/-- The class lists of the page's animatable elements, keyed by element id. -/
abbrev ClassMap := List (Nat × List String)

/-- Class list of one element (the empty list when the element is unknown). -/
def ClassMap.get : ClassMap → Nat → List String
  | [], _ => []
  | (e', cs) :: rest, e => if e' == e then cs else ClassMap.get rest e

/-- `element.classList.add(c)` for the element `e` of the map. -/
def ClassMap.addClass : ClassMap → Nat → String → ClassMap
  | [], e, c => [(e, classAdd [] c)]
  | (e', cs) :: rest, e, c =>
      if e' == e then (e', classAdd cs c) :: rest
      else (e', cs) :: ClassMap.addClass rest e c

/-- State of `AnimationManager`: the `observedElements` set, the target set of
its single `IntersectionObserver` (the observer object itself is represented by
its current target set), and the `isAnimationPaused` flag. -/
structure AnimationManager where
  observedElements : List Nat
  observerTargets : List Nat
  isAnimationPaused : Bool
deriving DecidableEq

/-- `new AnimationManager()` followed by `setupIntersectionObserver` (a fresh
observer has no targets). -/
def AnimationManager.new : AnimationManager :=
  { observedElements := [], observerTargets := [], isAnimationPaused := false }

/-- One entry handed to the IntersectionObserver callback. -/
structure IntersectionEntry where
  target : Nat
  isIntersecting : Bool
deriving DecidableEq

/-- `animateElement(element)`: `element.classList.add('animated')`. -/
def animateElement (dom : ClassMap) (e : Nat) : ClassMap :=
  dom.addClass e "animated"

/-- The callback installed by `setupIntersectionObserver`: return immediately
while paused; otherwise, for every intersecting entry, animate the target and
`unobserve` it. -/
def AnimationManager.observerCallback (am : AnimationManager) (dom : ClassMap)
    (entries : List IntersectionEntry) : AnimationManager × ClassMap :=
  if am.isAnimationPaused then (am, dom)
  else
    entries.foldl
      (fun (s : AnimationManager × ClassMap) entry =>
        if entry.isIntersecting then
          ({ s.1 with observerTargets := s.1.observerTargets.erase entry.target },
            animateElement s.2 entry.target)
        else s)
      (am, dom)

/-- Browser side of the IntersectionObserver API: an intersection event reaches
the callback only while its target is among the observer's current targets —
after `unobserve`, no further entries are generated for that element. -/
def AnimationManager.deliverEntries (am : AnimationManager) (dom : ClassMap)
    (entries : List IntersectionEntry) : AnimationManager × ClassMap :=
  am.observerCallback dom (entries.filter (fun e => am.observerTargets.contains e.target))

/-- `pause()`: set the flag only; the observer is untouched. -/
def AnimationManager.pause (am : AnimationManager) : AnimationManager :=
  { am with isAnimationPaused := true }

/-- `resume()`: clear the flag only; the observer is untouched. -/
def AnimationManager.resume (am : AnimationManager) : AnimationManager :=
  { am with isAnimationPaused := false }

/-- `observeElements`: observe every element matched by the animate-on-scroll
selectors and record it in `observedElements` (the class/delay bookkeeping on
those elements is not read by any later code modelled here). -/
def AnimationManager.observeElements (am : AnimationManager) (targets : List Nat) :
    AnimationManager :=
  { am with
      observerTargets := am.observerTargets ++ targets,
      observedElements := am.observedElements ++ targets }

/-- State of the closure returned by `Utils.throttle(func, limit)` (and by the
identical `NavigationManager.throttle` / `ScrollManager.throttle`): `none` when
`inThrottle` is falsy, `some expiry` when `inThrottle` is set and the pending
`setTimeout(() => inThrottle = false, limit)` fires at time `expiry`. -/
abbrev ThrottleState := Option Nat

/-- One call of the throttled wrapper at time `t`: the timer that was due at
`expiry ≤ t` has already reset `inThrottle` by the time the call runs, so such
a call invokes `func`, sets `inThrottle` and schedules the reset at
`t + limit`; a call strictly before `expiry` is dropped. Returns the new state
and whether `func` was invoked. -/
def throttleStep (limit : Nat) (st : ThrottleState) (t : Nat) : ThrottleState × Bool :=
  match st with
  | some expiry => if t < expiry then (some expiry, false) else (some (t + limit), true)
  | none => (some (t + limit), true)

/-- Feed a sequence of call times through the throttled wrapper, collecting
the times at which `func` is actually invoked. -/
def throttleRun (limit : Nat) : ThrottleState → List Nat → List Nat
  | _, [] => []
  | st, t :: ts =>
      match throttleStep limit st t with
      | (st', true) => t :: throttleRun limit st' ts
      | (st', false) => throttleRun limit st' ts

/-- One line of console output. -/
inductive LogEntry
  | info (msg : String)
  | warn (msg : String)
  | err (msg : String)
deriving DecidableEq

/-- The page state mutated by the components during initialization: the bound
event listeners (in binding order, named by target and event), the console
log, the document state touched by `ThemeManager`, and the number of
scroll-to-top buttons appended to `document.body`. -/
structure World where
  listeners : List String
  log : List LogEntry
  doc : Doc
  scrollButtons : Nat
deriving DecidableEq

/-- The read-only browser inputs the component `init()`s consult: which of the
navigation elements exist, the nav links, the sections and scroll metrics for
`setActiveLink`, the elements matched by the animate-on-scroll selectors, the
system color-scheme preference and `localStorage`. -/
structure DomEnv where
  navbarExists : Bool
  mobileMenuExists : Bool
  navMenuExists : Bool
  navLinkHrefs : List String
  sections : List PageSection
  scrollY : Int
  navbarHeight : Int
  animTargets : List Nat
  systemPrefersDark : Bool
  localStorage : Store
deriving DecidableEq

/-- State of `NavigationManager`: the three cached element references are
recorded by whether they are non-null. -/
structure NavigationManager where
  navbar : Bool
  navToggle : Bool
  navMenu : Bool
  navLinks : List NavLink
  isMenuOpen : Bool
  scrollThreshold : Nat
deriving DecidableEq

/-- `new NavigationManager()`. -/
def NavigationManager.new : NavigationManager :=
  { navbar := false, navToggle := false, navMenu := false,
    navLinks := [], isMenuOpen := false, scrollThreshold := 50 }

/-- `cacheElements` up to its final check: look up the three elements by id and
collect the `.nav-link` elements. -/
def NavigationManager.cacheElements (nm : NavigationManager) (env : DomEnv) :
    NavigationManager :=
  { nm with
      navbar := env.navbarExists,
      navToggle := env.mobileMenuExists,
      navMenu := env.navMenuExists,
      navLinks := env.navLinkHrefs.map (fun h => { href := h, classes := [] }) }

/-- The `if (!this.navbar || !this.navToggle || !this.navMenu)` guard at the
end of `cacheElements`. -/
def NavigationManager.missingRequired (nm : NavigationManager) : Bool :=
  !nm.navbar || !nm.navToggle || !nm.navMenu

/-- `NavigationManager.bindEvents`: the toggle click, one click listener per
nav link, the outside-click listener on `document` and the throttled scroll
listener on `window`. -/
def NavigationManager.bindEvents (nm : NavigationManager) (w : World) : World :=
  { w with
      listeners := w.listeners ++ ["navToggle.click"]
        ++ nm.navLinks.map (fun _ => "navLink.click")
        ++ ["document.click", "window.scroll(throttled)"] }

/-- `NavigationManager.init`: `cacheElements` (assigning the fields and then
throwing `Required navigation elements not found` when one of the three
required elements is missing — the thrown error is the third component of the
result, `none` meaning no exception), then `bindEvents`, then `setActiveLink`. -/
def NavigationManager.init (nm : NavigationManager) (env : DomEnv) (w : World) :
    NavigationManager × World × Option String :=
  let nm1 := nm.cacheElements env
  if nm1.missingRequired then
    (nm1, w, some "Required navigation elements not found")
  else
    let w1 := nm1.bindEvents w
    let nm2 := { nm1 with navLinks := setActiveLink env.sections nm1.navLinks env.scrollY env.navbarHeight }
    (nm2, w1, none)

/-- State of `ScrollManager`. -/
structure ScrollManager where
  hasButton : Bool
  scrollThreshold : Nat
deriving DecidableEq

/-- `new ScrollManager()`. -/
def ScrollManager.new : ScrollManager :=
  { hasButton := false, scrollThreshold := 300 }

/-- `ScrollManager.init`: create and append the scroll-to-top button, then bind
the throttled scroll listener and the button click listener. Never throws. -/
def ScrollManager.init (sm : ScrollManager) (w : World) :
    ScrollManager × World × Option String :=
  let sm1 := { sm with hasButton := true }
  let w1 := { w with
      scrollButtons := w.scrollButtons + 1,
      listeners := w.listeners ++ ["window.scroll(throttled)", "scrollToTopButton.click"] }
  (sm1, w1, none)

/-- `AnimationManager.init`: `setupIntersectionObserver`, `observeElements`,
`addTypingEffect`. The typewriter effect only schedules timer-driven text
mutation of the hero title, which no claim reads; it binds no listeners and
never throws. -/
def AnimationManager.init (am : AnimationManager) (env : DomEnv) (w : World) :
    AnimationManager × World × Option String :=
  (am.observeElements env.animTargets, w, none)

/-- A registered component: one of the four variants held in the orchestrator's
`components` map. -/
inductive Component
  | navigation (nm : NavigationManager)
  | scroll (sm : ScrollManager)
  | animation (am : AnimationManager)
  | theme (tm : ThemeManager)
deriving DecidableEq

/-- `component.init()` as invoked by the orchestrator, threading the page
state; the `Option String` is the exception the call threw, if any.
`ThemeManager.init` additionally subscribes to media-query changes. -/
def Component.init (c : Component) (env : DomEnv) (w : World) :
    Component × World × Option String :=
  match c with
  | Component.navigation nm =>
      let (nm', w', e) := nm.init env w
      (Component.navigation nm', w', e)
  | Component.scroll sm =>
      let (sm', w', e) := sm.init w
      (Component.scroll sm', w', e)
  | Component.animation am =>
      let (am', w', e) := am.init env w
      (Component.animation am', w', e)
  | Component.theme tm =>
      let (tm', d') := tm.init env.systemPrefersDark env.localStorage w.doc
      (Component.theme tm',
        { w with doc := d', listeners := w.listeners ++ ["mediaQuery.change"] },
        none)

/-- `Map.prototype.set` on the component registry: replace in place when the
key exists, append otherwise (insertion order is preserved). -/
def mapSet : List (String × Component) → String → Component → List (String × Component)
  | [], k, v => [(k, v)]
  | (k', v') :: rest, k, v =>
      if k' == k then (k, v) :: rest else (k', v') :: mapSet rest k v

/-- State of the orchestrator `PortfolioApp`. -/
structure PortfolioApp where
  components : List (String × Component)
  isInitialized : Bool
deriving DecidableEq

/-- `new PortfolioApp()`. -/
def PortfolioApp.new : PortfolioApp :=
  { components := [], isInitialized := false }

/-- `registerComponents`: register the four components under fixed names, in
order. -/
def PortfolioApp.registerComponents (app : PortfolioApp) : PortfolioApp :=
  { app with
      components :=
        mapSet
          (mapSet
            (mapSet
              (mapSet app.components "navigation" (Component.navigation NavigationManager.new))
              "scroll" (Component.scroll ScrollManager.new))
            "animation" (Component.animation AnimationManager.new))
          "theme" (Component.theme ThemeManager.new) }

/-- The body of the `forEach` in `initializeComponents`: `try`
`component.init()` and log success, `catch` and log the failure. -/
def initComponentsStep (env : DomEnv) (acc : List (String × Component) × World)
    (p : String × Component) : List (String × Component) × World :=
  match p.2.init env acc.2 with
  | (c', w', none) =>
      (acc.1 ++ [(p.1, c')],
        { w' with log := w'.log ++ [LogEntry.info (p.1 ++ " component initialized")] })
  | (c', w', some msg) =>
      (acc.1 ++ [(p.1, c')],
        { w' with log := w'.log ++ [LogEntry.err ("Failed to initialize " ++ p.1 ++ " component: " ++ msg)] })

/-- `initializeComponents`: call `init()` on every registered component in
order, catching and logging any failure without aborting the rest. -/
def PortfolioApp.initializeComponents (app : PortfolioApp) (env : DomEnv) (w : World) :
    PortfolioApp × World :=
  let r := app.components.foldl (initComponentsStep env) ([], w)
  ({ app with components := r.1 }, r.2)

/-- `PortfolioApp.bindEvents`: the three global listeners. -/
def PortfolioApp.bindEvents (w : World) : World :=
  { w with listeners := w.listeners ++ ["document.visibilitychange", "window.resize(debounced)", "window.error"] }

/-- `PortfolioApp.init`: warn and return when already initialized; otherwise
register, initialize, bind the global listeners, set the flag and log success.
Every step of the `try` block is total here (failures of individual components
are caught inside `initializeComponents`), so the outer `catch` never fires. -/
def PortfolioApp.init (app : PortfolioApp) (env : DomEnv) (w : World) :
    PortfolioApp × World :=
  if app.isInitialized then
    (app, { w with log := w.log ++ [LogEntry.warn "Application already initialized"] })
  else
    let app1 := app.registerComponents
    let r := app1.initializeComponents env w
    let w2 := PortfolioApp.bindEvents r.2
    ({ r.1 with isInitialized := true },
      { w2 with log := w2.log ++ [LogEntry.info "Portfolio application initialized successfully"] })

/-- Query parameters of the page URL, in order; `URLSearchParams.get` returns
the first value for the name. -/
abbrev Params := List (String × String)

/-- `getUrlParameter(name)` from tracking.js: `urlParams.get(name)`, which is
`null` (`none`) when the parameter is absent. -/
def getUrlParameter (params : Params) (name : String) : Option String :=
  Store.getItem params name

/-- JavaScript `a || b` for a nullable string `a`: `a` when it is truthy
(non-null and non-empty), else `b`. -/
def jsOr (a : Option String) (b : String) : String :=
  match a with
  | some s => if s == "" then b else s
  | none => b

/-- The resolution rule exactly as the specification sentence of claim C8
states it: the value of `source` if the parameter is present, else
`utm_source` if present, else `ref` if present, else `direct` — with no
condition on the values being non-empty. -/
def claimedSource (params : Params) : String :=
  match getUrlParameter params "source" with
  | some s => s
  | none =>
      match getUrlParameter params "utm_source" with
      | some s => s
      | none =>
          match getUrlParameter params "ref" with
          | some s => s
          | none => "direct"

/-- Resolution of one name through a preference list, in the amended reading:
the first candidate that is present with a non-empty value, else the default. -/
def resolveParam (opts : List (Option String)) (dflt : String) : String :=
  match opts with
  | [] => dflt
  | o :: rest =>
      match o with
      | some s => if s ≠ "" then s else resolveParam rest dflt
      | none => resolveParam rest dflt

/-- `getVisitorId`: reuse the stored id when it is truthy, otherwise store and
return the freshly generated one (`fresh` stands for the
`'visitor_' + Date.now() + '_' + random` value). -/
def getVisitorId (ls : Store) (fresh : String) : String × Store :=
  match ls.getItem "visitor_id" with
  | some v => if v == "" then (fresh, ls.setItem "visitor_id" fresh) else (v, ls)
  | none => (fresh, ls.setItem "visitor_id" fresh)

/-- The assembled tracking payload: exactly the eight fields of the `data`
object literal in `trackVisitor`. -/
structure TrackingData where
  source : String
  campaign : String
  medium : String
  referrer : String
  user_agent : String
  page : String
  timestamp : String
  visitor_id : String
deriving DecidableEq

/-- The browser inputs `trackVisitor` reads; `fetchFails` says whether the
network POST, if attempted, would reject. -/
structure TrackEnv where
  params : Params
  hostname : String
  referrer : String
  userAgent : String
  pathname : String
  nowISO : String
  newVisitorId : String
  localStorage : Store
  sessionStorage : Store
  fetchFails : Bool
deriving DecidableEq

/-- Everything `trackVisitor` leaves behind: the payload, whether the POST was
attempted, both storage areas, the console output in order, and whether any
error escaped to the page. -/
structure TrackResult where
  data : TrackingData
  sendAttempted : Bool
  localStorage : Store
  sessionStorage : Store
  consoleLog : List String
  pageError : Bool
deriving DecidableEq

/-- `trackVisitor` from tracking.js. The POST is attempted only off
`localhost`/`127.0.0.1`; when it is attempted and rejects, the attached
`.catch` consumes the rejection (logging `Tracking skipped` later, after the
synchronous `Visitor tracked` log) so no error ever escapes to the page; the
resolved source is stored in `sessionStorage` under `visit_source` when it is
not `direct`. -/
def trackVisitor (env : TrackEnv) : TrackResult :=
  let source := jsOr (getUrlParameter env.params "source")
      (jsOr (getUrlParameter env.params "utm_source")
        (jsOr (getUrlParameter env.params "ref") "direct"))
  let campaign := jsOr (getUrlParameter env.params "campaign")
      (jsOr (getUrlParameter env.params "utm_campaign") "")
  let medium := jsOr (getUrlParameter env.params "medium")
      (jsOr (getUrlParameter env.params "utm_medium") "")
  let vr := getVisitorId env.localStorage env.newVisitorId
  let data : TrackingData :=
    { source := source, campaign := campaign, medium := medium,
      referrer := env.referrer, user_agent := env.userAgent,
      page := env.pathname, timestamp := env.nowISO, visitor_id := vr.1 }
  let sendAttempted := env.hostname != "localhost" && env.hostname != "127.0.0.1"
  let fetchLog := if sendAttempted && env.fetchFails then ["Tracking skipped"] else []
  let ss1 := if source != "direct" then env.sessionStorage.setItem "visit_source" source
      else env.sessionStorage
  { data := data,
    sendAttempted := sendAttempted,
    localStorage := vr.2,
    sessionStorage := ss1,
    consoleLog := ["Visitor tracked"] ++ fetchLog,
    pageError := false }

/-- The console entry `initializeComponents` produces for one component. -/
def componentLogEntry (env : DomEnv) (w : World) (p : String × Component) : LogEntry :=
  match (p.2.init env w).2.2 with
  | none => LogEntry.info (p.1 ++ " component initialized")
  | some msg => LogEntry.err ("Failed to initialize " ++ p.1 ++ " component: " ++ msg)

/-- A concrete page load of `https://omartaha.ca/?utm_source=linkedin&utm_campaign=launch`. -/
def C8env : TrackEnv :=
  { params := [("utm_source", "linkedin"), ("utm_campaign", "launch")],
    hostname := "omartaha.ca", referrer := "", userAgent := "UA",
    pathname := "/", nowISO := "2026-01-01T00:00:00Z",
    newVisitorId := "visitor_1_abc",
    localStorage := [], sessionStorage := [], fetchFails := false }

/-- A concrete page load of `https://omartaha.ca/?source=&utm_source=linkedin`:
the `source` parameter is present with an empty value. -/
def C8cexEnv : TrackEnv :=
  { params := [("source", ""), ("utm_source", "linkedin")],
    hostname := "omartaha.ca", referrer := "", userAgent := "UA",
    pathname := "/", nowISO := "2026-01-01T00:00:00Z",
    newVisitorId := "visitor_1_abc",
    localStorage := [], sessionStorage := [], fetchFails := false }

/-! ## Helper lemmas -/

theorem Store.getItem_setItem_self (s : Store) (k v : String) :
    (s.setItem k v).getItem k = some v := by
  induction s with
  | nil => simp [Store.setItem, Store.getItem]
  | cons p rest ih =>
      by_cases h : p.1 == k
      · simp [Store.setItem, Store.getItem, h]
      · simp [Store.setItem, Store.getItem, h, ih]

theorem Store.setItem_setItem (s : Store) (k v₁ v₂ : String) :
    (s.setItem k v₁).setItem k v₂ = s.setItem k v₂ := by
  induction s with
  | nil => simp [Store.setItem]
  | cons p rest ih =>
      by_cases h : p.1 == k
      · simp [Store.setItem, h]
      · simp [Store.setItem, h, ih]

theorem applyTheme_applyTheme (tm tm' : ThemeManager) (d : Doc) :
    tm.applyTheme (tm'.applyTheme d) = tm.applyTheme d := by
  cases d with
  | mk dt mc =>
      cases mc <;>
        simp [ThemeManager.applyTheme, ThemeManager.updateMetaThemeColor]

theorem throttleRun_bounded_below (limit : Nat) :
    ∀ (calls : List Nat) (expiry : Nat),
      ∀ t ∈ throttleRun limit (some expiry) calls, expiry ≤ t := by
  intro calls
  induction calls with
  | nil => intro expiry t ht; simp [throttleRun] at ht
  | cons c ts ih =>
      intro expiry t ht
      by_cases h : c < expiry
      · rw [throttleRun, throttleStep] at ht
        simp only [if_pos h] at ht
        exact ih expiry t ht
      · rw [throttleRun, throttleStep] at ht
        simp only [if_neg h, List.mem_cons] at ht
        rcases ht with h1 | h1
        · omega
        · have := ih (c + limit) t h1
          omega

theorem throttleRun_chain (limit : Nat) :
    ∀ (calls : List Nat) (st : ThrottleState),
      (throttleRun limit st calls).Chain' (fun t₁ t₂ => t₁ + limit ≤ t₂) := by
  intro calls
  induction calls with
  | nil => intro st; simp [throttleRun]
  | cons c ts ih =>
      intro st
      have hfired : (throttleRun limit (some (c + limit)) ts).Chain' (fun t₁ t₂ => t₁ + limit ≤ t₂) →
          (c :: throttleRun limit (some (c + limit)) ts).Chain' (fun t₁ t₂ => t₁ + limit ≤ t₂) := by
        intro hch
        rw [List.chain'_cons']
        refine ⟨?_, hch⟩
        intro b hb
        exact throttleRun_bounded_below limit ts (c + limit) b (List.mem_of_mem_head? hb)
      match st with
      | none =>
          rw [throttleRun, throttleStep]
          exact hfired (ih (some (c + limit)))
      | some expiry =>
          by_cases h : c < expiry
          · rw [throttleRun, throttleStep]
            simp only [if_pos h]
            exact ih (some expiry)
          · rw [throttleRun, throttleStep]
            simp only [if_neg h]
            exact hfired (ih (some (c + limit)))

theorem throttleRun_sublist (limit : Nat) :
    ∀ (calls : List Nat) (st : ThrottleState),
      (throttleRun limit st calls).Sublist calls := by
  intro calls
  induction calls with
  | nil => intro st; simp [throttleRun]
  | cons c ts ih =>
      intro st
      match st with
      | none =>
          rw [throttleRun, throttleStep]
          exact List.Sublist.cons₂ c (ih (some (c + limit)))
      | some expiry =>
          by_cases h : c < expiry
          · rw [throttleRun, throttleStep]
            simp only [if_pos h]
            exact List.Sublist.cons c (ih (some expiry))
          · rw [throttleRun, throttleStep]
            simp only [if_neg h]
            exact List.Sublist.cons₂ c (ih (some (c + limit)))

/-! ## C7: throttle rate limiting -/

/-- C7. The wrapper returned by `Utils.throttle(func, limit)` invokes `func`
at most once per window of length `limit`: any two consecutive invocation
times are at least `limit` apart; the invocations are a subsequence of the
calls (intermediate calls are dropped, never queued); and 100 synchronous
calls (all at the same instant, no timer firing in between) through a 16ms
throttle invoke `func` exactly once. -/
theorem C7_throttle_rate_limit (limit : Nat) (calls : List Nat) :
    (throttleRun limit none calls).Chain' (fun t₁ t₂ => t₁ + limit ≤ t₂) ∧
    (throttleRun limit none calls).Sublist calls ∧
    throttleRun 16 none (List.replicate 100 0) = [0] :=
  ⟨throttleRun_chain limit calls none, throttleRun_sublist limit calls none, by decide⟩

theorem ClassMap.get_addClass_self (m : ClassMap) (e : Nat) (c : String) :
    (m.addClass e c).get e = classAdd (m.get e) c := by
  induction m with
  | nil => simp [ClassMap.addClass, ClassMap.get]
  | cons p rest ih =>
      by_cases h : p.1 == e
      · simp [ClassMap.addClass, ClassMap.get, h]
      · simp [ClassMap.addClass, ClassMap.get, h, ih]

theorem mem_classAdd_self (cs : List String) (c : String) : c ∈ classAdd cs c := by
  by_cases h : c ∈ cs <;> simp [classAdd, h]

theorem deliverEntries_qualifying (am : AnimationManager) (dom : ClassMap) (e : Nat)
    (hp : am.isAnimationPaused = false) (hmem : e ∈ am.observerTargets) :
    am.deliverEntries dom [⟨e, true⟩] =
      ({ am with observerTargets := am.observerTargets.erase e }, animateElement dom e) := by
  simp [AnimationManager.deliverEntries, AnimationManager.observerCallback, hp, hmem]

theorem deliverEntries_not_target (am : AnimationManager) (dom : ClassMap) (e : Nat)
    (h : e ∉ am.observerTargets) :
    am.deliverEntries dom [⟨e, true⟩] = (am, dom) := by
  by_cases hp : am.isAnimationPaused <;>
    simp [AnimationManager.deliverEntries, AnimationManager.observerCallback, hp, h]

/-! ## C4: one-shot animation -/

/-- C4. For an element observed by the (unpaused) `AnimationManager`, a
qualifying intersection event marks it `animated` and removes it from
observation, and a second qualifying intersection event for the same element
produces no further evaluation or class mutation at all. -/
theorem C4_one_shot_animation (am : AnimationManager) (dom : ClassMap) (e : Nat)
    (hp : am.isAnimationPaused = false) (hmem : e ∈ am.observerTargets)
    (hnd : am.observerTargets.Nodup) :
    "animated" ∈ ((am.deliverEntries dom [⟨e, true⟩]).2.get e) ∧
    e ∉ (am.deliverEntries dom [⟨e, true⟩]).1.observerTargets ∧
    (∀ dom' : ClassMap,
      (am.deliverEntries dom [⟨e, true⟩]).1.deliverEntries dom' [⟨e, true⟩] =
        ((am.deliverEntries dom [⟨e, true⟩]).1, dom')) := by
  rw [deliverEntries_qualifying am dom e hp hmem]
  refine ⟨?_, ?_, ?_⟩
  · simpa [animateElement, ClassMap.get_addClass_self] using
      mem_classAdd_self (dom.get e) "animated"
  · intro hmem'
    exact absurd hmem' (by simpa using fun hin => ((hnd.mem_erase_iff).mp hin).1 rfl)
  · intro dom'
    exact deliverEntries_not_target _ dom' e
      (by simpa using fun hin => ((hnd.mem_erase_iff).mp hin).1 rfl)

/-- Witness for C4: the single observed element 1 is animated and unobserved
by its first qualifying intersection event. -/
theorem C4_one_shot_animation_witness :
    "animated" ∈ ((AnimationManager.deliverEntries ⟨[1], [1], false⟩ [] [⟨1, true⟩]).2.get 1) ∧
    1 ∉ (AnimationManager.deliverEntries ⟨[1], [1], false⟩ [] [⟨1, true⟩]).1.observerTargets :=
  ⟨(C4_one_shot_animation ⟨[1], [1], false⟩ [] 1 rfl (by decide) (by decide)).1,
    (C4_one_shot_animation ⟨[1], [1], false⟩ [] 1 rfl (by decide) (by decide)).2.1⟩

/-! ## C5: pause gating of intersection callbacks -/

/-- C5. After `pause()`, delivering any batch of intersection entries mutates
neither the manager nor any element's class list; `pause()` and `resume()`
only toggle the `isAnimationPaused` flag, leaving the observer's target set
and the observed-element set intact; and after `resume()`, a qualifying
intersection event for a still-observed element does add the `animated`
class. -/
theorem C5_pause_gating (am : AnimationManager) (dom : ClassMap)
    (entries : List IntersectionEntry) :
    (am.pause.deliverEntries dom entries = (am.pause, dom)) ∧
    am.pause.isAnimationPaused = true ∧
    am.pause.observerTargets = am.observerTargets ∧
    am.pause.observedElements = am.observedElements ∧
    am.resume.isAnimationPaused = false ∧
    am.resume.observerTargets = am.observerTargets ∧
    am.resume.observedElements = am.observedElements ∧
    (∀ e, e ∈ am.observerTargets →
      "animated" ∈ ((am.pause.resume.deliverEntries dom [⟨e, true⟩]).2.get e)) := by
  refine ⟨?_, rfl, rfl, rfl, rfl, rfl, rfl, ?_⟩
  · simp [AnimationManager.pause, AnimationManager.deliverEntries,
      AnimationManager.observerCallback]
  · intro e hmem
    rw [deliverEntries_qualifying (am.pause.resume) dom e rfl
      (by simpa [AnimationManager.pause, AnimationManager.resume] using hmem)]
    simpa [animateElement, ClassMap.get_addClass_self] using
      mem_classAdd_self (dom.get e) "animated"

/-- Witness for C5: with element 1 observed, a qualifying event under pause
changes nothing, and after resume it animates the element. -/
theorem C5_pause_gating_witness :
    ((AnimationManager.pause ⟨[1], [1], false⟩).deliverEntries [] [⟨1, true⟩] =
      (AnimationManager.pause ⟨[1], [1], false⟩, [])) ∧
    "animated" ∈
      (((AnimationManager.pause ⟨[1], [1], false⟩).resume.deliverEntries [] [⟨1, true⟩]).2.get 1) :=
  ⟨(C5_pause_gating ⟨[1], [1], false⟩ [] [⟨1, true⟩]).1,
    (C5_pause_gating ⟨[1], [1], false⟩ [] [⟨1, true⟩]).2.2.2.2.2.2.2 1 (by decide)⟩

theorem mem_classToggleForce (cs : List String) (c : String) (b : Bool) :
    c ∈ classToggleForce cs c b ↔ b = true := by
  cases b
  · simp [classToggleForce, classRemove]
  · simp [classToggleForce, mem_classAdd_self cs c]

theorem lastQualifying_from_some (pos : Int) :
    ∀ (sections : List PageSection) (x : String),
      sections.foldl (fun cur s => if s.top ≤ pos then some s.id else cur) (some x) =
        some (sections.foldl (fun cur s => if pos ≥ s.top then s.id else cur) x) := by
  intro sections
  induction sections with
  | nil => intro x; rfl
  | cons s rest ih =>
      intro x
      by_cases h : s.top ≤ pos <;> simp [h, ge_iff_le, ih]

theorem currentSectionId_eq (pos : Int) :
    ∀ (sections : List PageSection) (x : String),
      sections.foldl (fun cur s => if pos ≥ s.top then s.id else cur) x =
        (lastQualifying sections pos).getD x := by
  intro sections
  unfold lastQualifying
  induction sections with
  | nil => intro x; rfl
  | cons s rest ih =>
      intro x
      by_cases h : s.top ≤ pos
      · simp only [List.foldl_cons, ge_iff_le, h, if_pos, if_true]
        rw [lastQualifying_from_some pos rest s.id]
        simp [ih s.id, Option.getD]
      · simp only [List.foldl_cons, ge_iff_le, h, if_neg, if_false]
        exact ih x

theorem lastQualifying_mem (pos : Int) :
    ∀ (sections : List PageSection) (o : Option String) (sid : String),
      sections.foldl (fun cur s => if s.top ≤ pos then some s.id else cur) o = some sid →
      o = some sid ∨ ∃ s ∈ sections, s.id = sid ∧ s.top ≤ pos := by
  intro sections
  induction sections with
  | nil => intro o sid h; exact Or.inl h
  | cons s rest ih =>
      intro o sid h
      by_cases hs : s.top ≤ pos
      · simp only [List.foldl_cons, if_pos hs] at h
        rcases ih (some s.id) sid h with h1 | ⟨s', hs', h1, h2⟩
        · exact Or.inr ⟨s, List.mem_cons_self s rest, (Option.some_inj.mp h1).symm ▸ rfl, hs⟩
        · exact Or.inr ⟨s', List.mem_cons_of_mem s hs', h1, h2⟩
      · simp only [List.foldl_cons, if_neg hs] at h
        rcases ih o sid h with h1 | ⟨s', hs', h1, h2⟩
        · exact Or.inl h1
        · exact Or.inr ⟨s', List.mem_cons_of_mem s hs', h1, h2⟩

theorem active_iff (sections : List PageSection) (pos : Int) (target : String)
    (hids : ∀ s ∈ sections, s.id ≠ "") (ht : target ≠ "") :
    ((target == currentSectionId sections pos) = true ↔
      lastQualifying sections pos = some target) := by
  unfold currentSectionId
  rw [currentSectionId_eq pos sections ""]
  cases hq : lastQualifying sections pos with
  | none => simp [ht]
  | some sid =>
      have hsid : sid ≠ "" := by
        rcases lastQualifying_mem pos sections none sid hq with h1 | ⟨s, hs, h1, _⟩
        · exact absurd h1 (by simp)
        · exact h1 ▸ hids s hs
      simp only [Option.getD_some, beq_iff_eq, Option.some_inj]
      exact ⟨fun h => h.symm, fun h => h.symm⟩

/-! ## C6: active navigation link selection -/

/-- C6. `setActiveLink` marks as active exactly the links whose target is the
last section (in document order) whose top offset is at or below
`scrollY + navbarHeight + 100`, clearing the `active` class from every other
link; when no section qualifies, no link is active. Stated positionally over
the zip of the updated links with the original links; section ids and link
targets are assumed non-empty (a `section[id]` with an empty id or a link
`href` of `#` is outside the markup contract). -/
theorem C6_active_link (sections : List PageSection) (links : List NavLink)
    (scrollY navbarHeight : Int)
    (hids : ∀ s ∈ sections, s.id ≠ "")
    (hhrefs : ∀ l ∈ links, l.href.drop 1 ≠ "") :
    (∀ p ∈ (setActiveLink sections links scrollY navbarHeight).zip links,
        p.1.href = p.2.href ∧
        ("active" ∈ p.1.classes ↔
          lastQualifying sections (scrollY + navbarHeight + 100) = some (p.2.href.drop 1))) ∧
    (lastQualifying sections (scrollY + navbarHeight + 100) = none →
      ∀ l ∈ setActiveLink sections links scrollY navbarHeight, "active" ∉ l.classes) := by
  constructor
  · intro p hp
    induction links with
    | nil => simp [setActiveLink] at hp
    | cons a rest ih =>
        rw [setActiveLink] at hp
        simp only [List.map_cons, List.zip_cons_cons, List.mem_cons] at hp
        rcases hp with hp | hp
        · subst hp
          refine ⟨rfl, ?_⟩
          rw [mem_classToggleForce]
          exact active_iff sections (scrollY + navbarHeight + 100) (a.href.drop 1) hids
            (hhrefs a (List.mem_cons_self a rest))
        · exact ih (fun l hl => hhrefs l (List.mem_cons_of_mem a hl)) (by rw [setActiveLink]; exact hp)
  · intro hnone l hl
    rw [setActiveLink] at hl
    simp only [List.mem_map] at hl
    obtain ⟨l₀, hl₀, rfl⟩ := hl
    rw [mem_classToggleForce]
    intro hb
    have := (active_iff sections (scrollY + navbarHeight + 100) (l₀.href.drop 1) hids
      (hhrefs l₀ hl₀)).mp hb
    rw [hnone] at this
    exact Option.noConfusion this

/-- Witness for C6: with section tops `[0, 500, 1000]` and
`scrollY + navbarHeight + 100 = 600`, the active link is the one targeting the
section at offset 500 (`#about`). -/
theorem C6_active_link_witness :
    (NavLink.mk "#about" ["active"]).href = (NavLink.mk "#about" []).href ∧
    ("active" ∈ (NavLink.mk "#about" ["active"]).classes ↔
      lastQualifying [⟨"home", 0⟩, ⟨"about", 500⟩, ⟨"projects", 1000⟩] (480 + 20 + 100) =
        some ((NavLink.mk "#about" []).href.drop 1)) :=
  (C6_active_link [⟨"home", 0⟩, ⟨"about", 500⟩, ⟨"projects", 1000⟩]
      [⟨"#home", []⟩, ⟨"#about", []⟩, ⟨"#projects", []⟩] 480 20
      (by decide) (by decide))
    |>.1 ⟨⟨"#about", ["active"]⟩, ⟨"#about", []⟩⟩ (by decide)

theorem Component.init_world (c : Component) (env : DomEnv) (w w' : World) :
    (c.init env w).1 = (c.init env w').1 ∧ (c.init env w).2.2 = (c.init env w').2.2 := by
  cases c with
  | navigation nm =>
      by_cases h : (nm.cacheElements env).missingRequired <;>
        simp [Component.init, NavigationManager.init, h]
  | scroll sm => simp [Component.init, ScrollManager.init]
  | animation am => simp [Component.init, AnimationManager.init]
  | theme tm => simp [Component.init, ThemeManager.init]

theorem Component.init_log (c : Component) (env : DomEnv) (w : World) :
    (c.init env w).2.1.log = w.log := by
  cases c with
  | navigation nm =>
      by_cases h : (nm.cacheElements env).missingRequired <;>
        simp [Component.init, NavigationManager.init, NavigationManager.bindEvents, h]
  | scroll sm => simp [Component.init, ScrollManager.init]
  | animation am => simp [Component.init, AnimationManager.init]
  | theme tm => simp [Component.init, ThemeManager.init]

theorem componentLogEntry_world (env : DomEnv) (w w' : World) (p : String × Component) :
    componentLogEntry env w p = componentLogEntry env w' p := by
  unfold componentLogEntry
  rw [(Component.init_world p.2 env w w').2]

theorem initComponents_foldl (env : DomEnv) :
    ∀ (comps : List (String × Component)) (acc : List (String × Component)) (w : World),
      (comps.foldl (initComponentsStep env) (acc, w)).1 =
        acc ++ comps.map (fun p => (p.1, (p.2.init env w).1)) ∧
      (comps.foldl (initComponentsStep env) (acc, w)).2.log =
        w.log ++ comps.map (componentLogEntry env w) := by
  intro comps
  induction comps with
  | nil => intro acc w; simp
  | cons p rest ih =>
      intro acc w
      rcases hini : p.2.init env w with ⟨c', w', e⟩
      have hlog : w'.log = w.log := by
        have := Component.init_log p.2 env w
        rw [hini] at this
        exact this
      have hstep : initComponentsStep env (acc, w) p =
          (acc ++ [(p.1, c')], { w' with log := w'.log ++ [componentLogEntry env w p] }) := by
        unfold initComponentsStep componentLogEntry
        rw [hini]
        cases e <;> rfl
      rw [List.foldl_cons, hstep]
      have hmapfst : rest.map (fun q => (q.1, (q.2.init env
          { w' with log := w'.log ++ [componentLogEntry env w p] }).1)) =
          rest.map (fun q => (q.1, (q.2.init env w).1)) := by
        refine List.map_congr_left (fun q _ => ?_)
        rw [(Component.init_world q.2 env
          { w' with log := w'.log ++ [componentLogEntry env w p] } w).1]
      have hmaplog : rest.map (componentLogEntry env
          { w' with log := w'.log ++ [componentLogEntry env w p] }) =
          rest.map (componentLogEntry env w) := by
        refine List.map_congr_left (fun q _ => ?_)
        exact componentLogEntry_world env _ w q
      constructor
      · rw [(ih _ _).1, hmapfst]
        simp [hini]
      · rw [(ih _ _).2, hmaplog]
        simp [hlog, hini, componentLogEntry]

/-! ## C2: per-component error isolation during initialization -/

/-- C2. `initializeComponents` calls `init()` on every registered component in
order, catching each failure: the resulting registry pairs every name with the
state its own `init()` produced, the console gets exactly one entry per
component (an error entry exactly for the components whose `init()` threw),
and in particular when the navbar, mobile-menu toggle or nav-menu element is
missing, the navigation component fails while the scroll, animation and theme
components are all still initialized. -/
theorem C2_error_isolation (app : PortfolioApp) (env : DomEnv) (w : World) :
    ((app.initializeComponents env w).1.components =
      app.components.map (fun p => (p.1, (p.2.init env w).1))) ∧
    ((app.initializeComponents env w).2.log =
      w.log ++ app.components.map (componentLogEntry env w)) ∧
    (∀ (env' : DomEnv) (w' : World),
      (!env'.navbarExists || !env'.mobileMenuExists || !env'.navMenuExists) = true →
      (PortfolioApp.new.registerComponents.initializeComponents env' w').2.log =
        w'.log ++
          [LogEntry.err "Failed to initialize navigation component: Required navigation elements not found",
            LogEntry.info "scroll component initialized",
            LogEntry.info "animation component initialized",
            LogEntry.info "theme component initialized"]) := by
  refine ⟨(initComponents_foldl env app.components [] w).1,
    (initComponents_foldl env app.components [] w).2, ?_⟩
  intro env' w' hmiss
  have hcomps : PortfolioApp.new.registerComponents.components =
      [("navigation", Component.navigation NavigationManager.new),
        ("scroll", Component.scroll ScrollManager.new),
        ("animation", Component.animation AnimationManager.new),
        ("theme", Component.theme ThemeManager.new)] := by
    rfl
  have h := (initComponents_foldl env' PortfolioApp.new.registerComponents.components [] w').2
  have hlogeq : (PortfolioApp.new.registerComponents.initializeComponents env' w').2.log =
      (PortfolioApp.new.registerComponents.components.foldl (initComponentsStep env') ([], w')).2.log := rfl
  rw [hlogeq, h, hcomps]
  have hnavmiss : ((NavigationManager.new.cacheElements env').missingRequired) = true := by
    simpa [NavigationManager.cacheElements, NavigationManager.missingRequired] using hmiss
  simp [componentLogEntry, Component.init, NavigationManager.init, hnavmiss,
    ScrollManager.init, AnimationManager.init, ThemeManager.init]

/-- Witness for C2: with the navbar missing, the navigation component alone
fails and the other three are still initialized. -/
theorem C2_error_isolation_witness :
    (PortfolioApp.new.registerComponents.initializeComponents
        ⟨false, true, true, [], [], 0, 0, [], false, []⟩
        ⟨[], [], ⟨none, none⟩, 0⟩).2.log =
      [LogEntry.err "Failed to initialize navigation component: Required navigation elements not found",
        LogEntry.info "scroll component initialized",
        LogEntry.info "animation component initialized",
        LogEntry.info "theme component initialized"] :=
  (C2_error_isolation PortfolioApp.new
      ⟨false, true, true, [], [], 0, 0, [], false, []⟩ ⟨[], [], ⟨none, none⟩, 0⟩).2.2
    ⟨false, true, true, [], [], 0, 0, [], false, []⟩ ⟨[], [], ⟨none, none⟩, 0⟩ (by decide)

/-! ## C1: orchestrator init is idempotent -/

/-- C1. After `PortfolioApp.init()` has completed, the `isInitialized` flag is
set, and a second `init()` call is a no-op: it returns the application
unchanged (the component registry in particular), binds no listeners, touches
neither the document nor the DOM, raises no error, and only logs the
`Application already initialized` warning. -/
theorem C1_init_idempotent (app : PortfolioApp) (env : DomEnv) (w : World) :
    (app.init env w).1.isInitialized = true ∧
    (∀ (env' : DomEnv) (w' : World),
      ((app.init env w).1.init env' w').1 = (app.init env w).1 ∧
      ((app.init env w).1.init env' w').2.listeners = w'.listeners ∧
      ((app.init env w).1.init env' w').2.doc = w'.doc ∧
      ((app.init env w).1.init env' w').2.scrollButtons = w'.scrollButtons ∧
      ((app.init env w).1.init env' w').2.log =
        w'.log ++ [LogEntry.warn "Application already initialized"]) := by
  have already : ∀ (a : PortfolioApp), a.isInitialized = true → ∀ (e : DomEnv) (v : World),
      a.init e v = (a, { v with log := v.log ++ [LogEntry.warn "Application already initialized"] }) := by
    intro a ha e v
    simp [PortfolioApp.init, ha]
  have h1 : (app.init env w).1.isInitialized = true := by
    by_cases h : app.isInitialized <;> simp [PortfolioApp.init, h]
  refine ⟨h1, ?_⟩
  intro env' w'
  rw [already _ h1 env' w']
  exact ⟨rfl, rfl, rfl, rfl, rfl⟩

/-! ## C3: theme precedence on load -/

/-- C3. `ThemeManager.init` resolves the applied theme with the stored
preference taking precedence over the system preference: a stored value in
`{light, dark}` becomes `currentTheme` whatever the system preference is; when
the stored value is absent or invalid, `currentTheme` is `dark` exactly when
the system prefers dark, and `light` otherwise. -/
theorem C3_theme_precedence (tm : ThemeManager) (sys : Bool) (ls : Store) (d : Doc) :
    (∀ saved, ls.getItem "portfolio-theme" = some saved →
      (saved = "light" ∨ saved = "dark") →
      (tm.init sys ls d).1.currentTheme = saved) ∧
    ((ls.getItem "portfolio-theme" = none ∨
        ∃ saved, ls.getItem "portfolio-theme" = some saved ∧
          saved ≠ "light" ∧ saved ≠ "dark") →
      (tm.init sys ls d).1.currentTheme = if sys then "dark" else "light") := by
  constructor
  · intro saved hsome hval
    rcases hval with h | h <;>
      subst h <;>
      simp [ThemeManager.init, ThemeManager.detectSystemPreference,
        ThemeManager.loadSavedTheme, hsome]
  · intro hcase
    rcases hcase with hnone | ⟨saved, hsome, hl, hd⟩
    · simp [ThemeManager.init, ThemeManager.detectSystemPreference,
        ThemeManager.loadSavedTheme, hnone]
    · simp [ThemeManager.init, ThemeManager.detectSystemPreference,
        ThemeManager.loadSavedTheme, hsome, hl, hd]

/-- Witness for C3: with `dark` stored and a light system preference, the
loaded theme is `dark`. -/
theorem C3_theme_precedence_witness :
    (ThemeManager.new.init false [("portfolio-theme", "dark")] ⟨none, none⟩).1.currentTheme = "dark" :=
  (C3_theme_precedence ThemeManager.new false [("portfolio-theme", "dark")] ⟨none, none⟩).1
    "dark" (by decide) (Or.inr rfl)

/-! ## C10: toggleTheme twice is the identity on the theme state -/

/-- C10. For a `ThemeManager` whose `currentTheme` is `light` or `dark`, two
successive `toggleTheme()` calls restore `currentTheme`, and leave the
document and the persisted `portfolio-theme` entry exactly as a single
persisting application (`applyTheme` plus `saveTheme`) of the starting theme
would; after a single `toggleTheme()`, `hasUserPreference()` is true. -/
theorem C10_toggleTheme_twice (tm : ThemeManager) (d : Doc) (ls : Store)
    (h : tm.currentTheme = "light" ∨ tm.currentTheme = "dark") :
    ((tm.toggleTheme d ls).1.toggleTheme (tm.toggleTheme d ls).2.1
        (tm.toggleTheme d ls).2.2).1.currentTheme = tm.currentTheme ∧
    ((tm.toggleTheme d ls).1.toggleTheme (tm.toggleTheme d ls).2.1
        (tm.toggleTheme d ls).2.2).2.1 = tm.applyTheme d ∧
    ((tm.toggleTheme d ls).1.toggleTheme (tm.toggleTheme d ls).2.1
        (tm.toggleTheme d ls).2.2).2.1.dataTheme = some tm.currentTheme ∧
    ((tm.toggleTheme d ls).1.toggleTheme (tm.toggleTheme d ls).2.1
        (tm.toggleTheme d ls).2.2).2.2 = tm.saveTheme ls ∧
    ((tm.toggleTheme d ls).1.toggleTheme (tm.toggleTheme d ls).2.1
        (tm.toggleTheme d ls).2.2).2.2.getItem "portfolio-theme" = some tm.currentTheme ∧
    ThemeManager.hasUserPreference (tm.toggleTheme d ls).2.2 = true := by
  obtain ⟨dt, mc⟩ := d
  rcases h with h | h <;> cases mc <;>
    refine ⟨?_, ?_, ?_, ?_, ?_, ?_⟩ <;>
    simp [ThemeManager.toggleTheme, ThemeManager.saveTheme,
      ThemeManager.hasUserPreference, h,
      Store.setItem_setItem, Store.getItem_setItem_self,
      ThemeManager.applyTheme, ThemeManager.updateMetaThemeColor]

theorem resolveParam_cons (o : Option String) (rest : List (Option String)) (dflt : String) :
    resolveParam (o :: rest) dflt = jsOr o (resolveParam rest dflt) := by
  cases o with
  | none => rfl
  | some s => by_cases h : s = "" <;> simp [resolveParam, jsOr, h]

/-! ## C8: tracking source resolution and payload -/

/-- Counterexample to C8 as stated: on the query `?source=&utm_source=linkedin`
the `source` parameter is present (with the empty value), so the claimed rule
— the value of `source` whenever the parameter is present — yields the empty
string, while the code's JavaScript `||` chain treats the empty string as
falsy and resolves `linkedin`. -/
theorem C8_source_resolution_counterexample :
    getUrlParameter C8cexEnv.params "source" = some "" ∧
    claimedSource C8cexEnv.params = "" ∧
    (trackVisitor C8cexEnv).data.source = "linkedin" ∧
    (trackVisitor C8cexEnv).data.source ≠ claimedSource C8cexEnv.params := by
  refine ⟨rfl, rfl, rfl, ?_⟩
  decide

/-- C8 (amended). The resolved source is the first of `source`, `utm_source`,
`ref` that is present with a non-empty value, else `direct`; campaign and
medium are resolved analogously (plain name first, then the `utm_` name, else
the empty string); the assembled payload carries exactly the eight fields
source, campaign, medium, referrer, user_agent, page, timestamp, visitor_id
(`TrackingData` has no others); and for the query
`?utm_source=linkedin&utm_campaign=launch` the payload has source `linkedin`
and campaign `launch`. -/
theorem C8_source_resolution (env : TrackEnv) :
    ((trackVisitor env).data.source =
      resolveParam [getUrlParameter env.params "source",
        getUrlParameter env.params "utm_source",
        getUrlParameter env.params "ref"] "direct") ∧
    ((trackVisitor env).data.campaign =
      resolveParam [getUrlParameter env.params "campaign",
        getUrlParameter env.params "utm_campaign"] "") ∧
    ((trackVisitor env).data.medium =
      resolveParam [getUrlParameter env.params "medium",
        getUrlParameter env.params "utm_medium"] "") ∧
    ((trackVisitor env).data.referrer = env.referrer) ∧
    ((trackVisitor env).data.user_agent = env.userAgent) ∧
    ((trackVisitor env).data.page = env.pathname) ∧
    ((trackVisitor env).data.timestamp = env.nowISO) ∧
    ((trackVisitor env).data.visitor_id = (getVisitorId env.localStorage env.newVisitorId).1) ∧
    ((trackVisitor C8env).data.source = "linkedin" ∧
      (trackVisitor C8env).data.campaign = "launch") := by
  refine ⟨?_, ?_, ?_, rfl, rfl, rfl, rfl, rfl, rfl, rfl⟩ <;>
    simp [trackVisitor, resolveParam_cons, resolveParam, jsOr]

/-! ## C9: tracking local-host gating, session storage and silent failure -/

/-- C9. The network POST is attempted exactly when the hostname is neither
`localhost` nor `127.0.0.1`; the payload is computed identically whatever the
hostname, and is always logged; the resolved source is stored in
session-scoped storage under `visit_source` exactly when it is not `direct`;
and the outcome of the POST (success or network failure) changes nothing the
page can observe beyond the debug log — in particular no error escapes. -/
theorem C9_localhost_and_session (env : TrackEnv) :
    ((trackVisitor env).sendAttempted = true ↔
      (env.hostname ≠ "localhost" ∧ env.hostname ≠ "127.0.0.1")) ∧
    (∀ h' : String, (trackVisitor { env with hostname := h' }).data = (trackVisitor env).data) ∧
    ("Visitor tracked" ∈ (trackVisitor env).consoleLog) ∧
    ((trackVisitor env).data.source ≠ "direct" →
      (trackVisitor env).sessionStorage =
        env.sessionStorage.setItem "visit_source" (trackVisitor env).data.source) ∧
    ((trackVisitor env).data.source = "direct" →
      (trackVisitor env).sessionStorage = env.sessionStorage) ∧
    (∀ b : Bool,
      (trackVisitor { env with fetchFails := b }).pageError = false ∧
      (trackVisitor { env with fetchFails := b }).data = (trackVisitor env).data ∧
      (trackVisitor { env with fetchFails := b }).sessionStorage = (trackVisitor env).sessionStorage ∧
      (trackVisitor { env with fetchFails := b }).localStorage = (trackVisitor env).localStorage) := by
  refine ⟨?_, ?_, ?_, ?_, ?_, ?_⟩
  · simp [trackVisitor]
  · intro h'; rfl
  · simp [trackVisitor]
  · intro hs
    have hb : ((trackVisitor env).data.source != "direct") = true := by
      simpa using hs
    simp only [trackVisitor] at hb ⊢
    rw [if_pos hb]
  · intro hs
    have hb : ((trackVisitor env).data.source != "direct") = false := by
      simpa using hs
    simp only [trackVisitor] at hb ⊢
    rw [hb]
    simp
  · intro b
    exact ⟨rfl, rfl, rfl, rfl⟩

/-- Witness for C9: on the non-local host of `C8env`, the POST is attempted
and the non-`direct` source is written to session storage. -/
theorem C9_localhost_and_session_witness :
    ((trackVisitor C8env).sendAttempted = true ↔
      (C8env.hostname ≠ "localhost" ∧ C8env.hostname ≠ "127.0.0.1")) ∧
    ((trackVisitor C8env).sessionStorage =
      C8env.sessionStorage.setItem "visit_source" (trackVisitor C8env).data.source) :=
  ⟨(C9_localhost_and_session C8env).1,
    (C9_localhost_and_session C8env).2.2.2.1 (by decide)⟩

/-- Witness for C10: toggling twice from `light` restores the state a single
persisting application of `light` would give. -/
theorem C10_toggleTheme_twice_witness :
    ((ThemeManager.new.toggleTheme ⟨none, none⟩ []).1.toggleTheme
        (ThemeManager.new.toggleTheme ⟨none, none⟩ []).2.1
        (ThemeManager.new.toggleTheme ⟨none, none⟩ []).2.2).1.currentTheme = ThemeManager.new.currentTheme ∧
    ThemeManager.hasUserPreference (ThemeManager.new.toggleTheme ⟨none, none⟩ []).2.2 = true :=
  ⟨(C10_toggleTheme_twice ThemeManager.new ⟨none, none⟩ [] (Or.inl rfl)).1,
    (C10_toggleTheme_twice ThemeManager.new ⟨none, none⟩ [] (Or.inl rfl)).2.2.2.2.2⟩

end Portfolio
